import Mathlib

/-!
Verification development for the TATIS360 chatbot core and the audit-task
write operations of the uraics-revenue-assurance repository.

The embedding covers:
* `detect_intent` (src/backend/python_codes/components/tatis360.py, lines
  372-423): the regex-first, keyword-fallback intent classifier;
* the Cypher query functions `search_taxpayer_by_tin`,
  `search_taxpayer_by_name`, `find_related_taxpayers`, `get_risk_pathway`,
  `find_high_impact_cases`, `get_sector_risk_profile` (same file, lines
  68-366), modelled over an explicit list-based graph store;
* `generate_response` (same file, lines 425-550): the dispatcher;
* the audit-task write operations of
  src/backend/python_codes/components/audit_tasks.py (lines 346-617).

Machine integers of the source are modelled as `Int`/`Nat`; monetary values
as `Int`; the one-decimal similarity score as `Rat`.  A store-access failure
is modelled by a `failing` bit on the store: every query function's
`try/except` wrapper turns it into the function's empty result, exactly as
the Python handlers do.
-/

/-! ### Intent classifier: character-level helpers

`detect_intent` lowercases and strips the input (`user_input.lower().strip()`)
and then runs `re.search` for each pattern.  The patterns used by the source
fall into six fixed shapes; each shape gets a structurally recursive matcher
implementing CPython `re.search` semantics for that shape (leftmost starting
position; greedy `.*`, `\w+`, `.+` with backtracking; `.` matching every
character except a newline; `\w` being alphanumerics and the underscore —
the source's inputs are ASCII). -/

def isWordChar (c : Char) : Bool := c.isAlphanum || c = '_'

def notNL (c : Char) : Bool := c ≠ '\n'

/-- Python substring containment `needle in hay`. -/
def containsSub (needle : List Char) : List Char → Bool
  | [] => needle.isEmpty
  | c :: rest => needle.isPrefixOf (c :: rest) || containsSub needle rest

/-- Matcher for the shape `<w>(\w+)` (e.g. `search (\w+)` with `w = "search "`):
the match starts at the leftmost occurrence of the literal `w` that is
followed by at least one word character; the group captures the maximal run
of word characters there. -/
def litWordSearch (w : List Char) : List Char → Option (List Char)
  | [] => none
  | c :: rest =>
      if w.isPrefixOf (c :: rest) then
        let cap := ((c :: rest).drop w.length).takeWhile isWordChar
        if cap.isEmpty then litWordSearch w rest else some cap
      else litWordSearch w rest

/-- The rightmost word character of a list, if any. -/
def lastWordChar : List Char → Option Char
  | [] => none
  | c :: rest =>
      match lastWordChar rest with
      | some d => some d
      | none => if isWordChar c then some c else none

/-- Matcher for the shape `<w>.*(\w+)` (e.g. `risk.*(\w+)`): the greedy `.*`
backtracks just enough for `(\w+)` to match, so the group captures exactly
the last word character occurring after the literal and before the first
newline; the match starts at the leftmost occurrence of `w` for which such a
character exists. -/
def litDotStarWordSearch (w : List Char) : List Char → Option (List Char)
  | [] => none
  | c :: rest =>
      if w.isPrefixOf (c :: rest) then
        match lastWordChar ((((c :: rest).drop w.length)).takeWhile notNL) with
        | some d => some [d]
        | none => litDotStarWordSearch w rest
      else litDotStarWordSearch w rest

/-- Matcher for the shape `<a>.*<b>` (e.g. `high.*impact`): `b` must start no
further than the first newline after an occurrence of `a`.  (Neither literal
used by the source contains a newline.) -/
def litDotStarLitSearch (a b : List Char) : List Char → Bool
  | [] => false
  | c :: rest =>
      if a.isPrefixOf (c :: rest) then
        let tail := (c :: rest).drop a.length
        let hi := (tail.takeWhile notNL).length
        if containsSub b (tail.take (hi + b.length)) then true
        else litDotStarLitSearch a b rest
      else litDotStarLitSearch a b rest

/-- One backtracking step of `search .* (?:taxpayer|company) (.+)` at offset
`n` after the literal `search `: the alternation (with a space on either
side) must match at `n` and `(.+)` captures the maximal nonempty
newline-free run after it.  The two alternatives differ at their second
character, so at most one can apply. -/
def altCapAt (tail : List Char) (n : Nat) : Option (List Char) :=
  let t := tail.drop n
  if (" taxpayer ".data).isPrefixOf t then
    let cap := (t.drop 10).takeWhile notNL
    if cap.isEmpty then none else some cap
  else if (" company ".data).isPrefixOf t then
    let cap := (t.drop 9).takeWhile notNL
    if cap.isEmpty then none else some cap
  else none

/-- Greedy `.*`: try the largest offset first, backtracking downwards. -/
def altDescend (tail : List Char) : Nat → Option (List Char)
  | 0 => altCapAt tail 0
  | n + 1 =>
      match altCapAt tail (n + 1) with
      | some cap => some cap
      | none => altDescend tail n

/-- Matcher for `search .* (?:taxpayer|company) (.+)`. -/
def searchNameSearch : List Char → Option (List Char)
  | [] => none
  | c :: rest =>
      if ("search ".data).isPrefixOf (c :: rest) then
        let tail := (c :: rest).drop 7
        match altDescend tail ((tail.takeWhile notNL).length) with
        | some cap => some cap
        | none => searchNameSearch rest
      else searchNameSearch rest

/-- One backtracking step of `find .* (.+)` at offset `n`: a literal space
must sit at `n` and `(.+)` captures the maximal nonempty newline-free run
after it. -/
def spaceCapAt (tail : List Char) (n : Nat) : Option (List Char) :=
  match tail.drop n with
  | ' ' :: after =>
      let cap := after.takeWhile notNL
      if cap.isEmpty then none else some cap
  | _ => none

/-- Greedy `.*` for `find .* (.+)`: largest offset first. -/
def spaceDescend (tail : List Char) : Nat → Option (List Char)
  | 0 => spaceCapAt tail 0
  | n + 1 =>
      match spaceCapAt tail (n + 1) with
      | some cap => some cap
      | none => spaceDescend tail n

/-- Matcher for `find .* (.+)`. -/
def findNameSearch : List Char → Option (List Char)
  | [] => none
  | c :: rest =>
      if ("find ".data).isPrefixOf (c :: rest) then
        let tail := (c :: rest).drop 5
        match spaceDescend tail ((tail.takeWhile notNL).length) with
        | some cap => some cap
        | none => findNameSearch rest
      else findNameSearch rest

/-! ### Intent classifier: the pattern table of `detect_intent` -/

/-- The eight intent tags of the classifier (the seven table entries plus the
`help` default). -/
inductive Intent where
  | search_tin
  | search_name
  | risk_analysis
  | related
  | pathway
  | sector_analysis
  | high_impact
  | help
deriving DecidableEq, Repr

/-- A regex pattern of the source, given by its shape and literals. -/
inductive Pat where
  /-- `<w>(\w+)` -/
  | litThenWord (w : String)
  /-- `<w>.*(\w+)` -/
  | litDotStarWord (w : String)
  /-- a plain literal, e.g. `analyze risk` -/
  | litOnly (w : String)
  /-- `<a>.*<b>` -/
  | litDotStarLit (a b : String)
  /-- `search .* (?:taxpayer|company) (.+)` -/
  | searchNamePat
  /-- `find .* (.+)` -/
  | findNamePat
deriving DecidableEq, Repr

/-- `re.search` for one pattern: `some cap` on a match, where `cap` is
`group(1)` for a group-bearing pattern and `none` for a groupless one
(mirroring `match.group(1) if match.groups() else None`). -/
def patSearch : Pat → List Char → Option (Option (List Char))
  | .litThenWord w, s => (litWordSearch w.data s).map some
  | .litDotStarWord w, s => (litDotStarWordSearch w.data s).map some
  | .litOnly w, s => if containsSub w.data s then some none else none
  | .litDotStarLit a b, s => if litDotStarLitSearch a.data b.data s then some none else none
  | .searchNamePat, s => (searchNameSearch s).map some
  | .findNamePat, s => (findNameSearch s).map some

/-- One entry of the `intents` dict of `detect_intent`. -/
structure IntentDef where
  tag : Intent
  patterns : List Pat
  keywords : List String

/-- The `intents` dict, in its source (insertion) order. -/
def intentDefs : List IntentDef := [
  ⟨.search_tin,
    [.litThenWord "search ", .litThenWord "find ", .litThenWord "tin ",
     .litThenWord "taxpayer "],
    ["tin", "search", "find", "taxpayer"]⟩,
  ⟨.search_name,
    [.searchNamePat, .findNamePat],
    ["name", "company", "business"]⟩,
  ⟨.risk_analysis,
    [.litDotStarWord "risk", .litOnly "analyze risk"],
    ["risk", "flagged", "exposure", "profile"]⟩,
  ⟨.related,
    [.litDotStarWord "similar", .litDotStarWord "related",
     .litDotStarWord "network"],
    ["similar", "related", "network", "connected"]⟩,
  ⟨.pathway,
    [.litDotStarWord "evidence", .litDotStarWord "pathway"],
    ["evidence", "pathway", "details"]⟩,
  ⟨.sector_analysis,
    [.litThenWord "sector ", .litThenWord "industry "],
    ["sector", "industry", "agriculture", "manufacturing", "services"]⟩,
  ⟨.high_impact,
    [.litDotStarLit "high" "impact", .litDotStarLit "top" "cases",
     .litOnly "priority"],
    ["high", "impact", "priority", "urgent"]⟩]

/-- First matching pattern of a definition, in order. -/
def firstPat (pats : List Pat) (s : List Char) : Option (Option (List Char)) :=
  match pats with
  | [] => none
  | p :: rest =>
      match patSearch p s with
      | some cap => some cap
      | none => firstPat rest s

/-- `any(keyword in user_input for keyword in config['keywords'])`. -/
def keywordHit (kws : List String) (s : List Char) : Bool :=
  kws.any (fun k => containsSub k.data s)

/-- The `params` dict of the classifier: `none` is the empty dict `{}` of the
keyword path, `some v` is a dict whose `extracted_value` key holds `v`
(`some str` a string, `none` Python's `None`). -/
abbrev Params := Option (Option String)

/-- The loop body of `detect_intent`: for each definition, in priority order,
first all of its patterns, then its keyword set as a fallback — only then the
next definition. -/
def detectGo : List IntentDef → List Char → Intent × Params
  | [], _ => (.help, none)
  | d :: rest, s =>
      match firstPat d.patterns s with
      | some cap => (d.tag, some (cap.map (fun c => String.mk c)))
      | none =>
          if keywordHit d.keywords s then (d.tag, none) else detectGo rest s

/-- Python `str.strip()`: drop leading and trailing whitespace. -/
def stripChars (l : List Char) : List Char :=
  ((l.dropWhile Char.isWhitespace).reverse.dropWhile Char.isWhitespace).reverse

/-- `user_input.lower().strip()` (ASCII lower/strip, as in the source's
inputs). -/
def normalizeInput (input : String) : List Char :=
  stripChars (input.data.map Char.toLower)

/-- `detect_intent` (tatis360.py lines 372-423). -/
def detect_intent (input : String) : Intent × Params :=
  detectGo intentDefs (normalizeInput input)

-- sanity checks of the matcher against CPython `re` behaviour
example : detect_intent "find uganda breweries" = (.search_tin, some (some "uganda")) := by decide
example : detect_intent "risk rating" = (.search_tin, none) := by decide
example : detect_intent "hello" = (.help, none) := by decide
example : detect_intent "analyze risk" = (.risk_analysis, some none) := by decide
example : detect_intent "high impact cases" = (.high_impact, some none) := by decide
example : litDotStarWordSearch "risk".data "risk rating".data = some ['g'] := by decide

/-! ### Graph store model

The Neo4j graph is modelled as explicit lists of nodes and relationships.
`failing` models a store on which every query raises: each query function's
`try/except` handler then returns its empty/`None` result, exactly as the
Python code's handlers do. -/

structure Taxpayer where
  tin : String
  name : String
  region : String
  sector : String
  status : String
  createdDate : String
deriving DecidableEq, Repr

/-- A `RiskFlag` node (the fixed enumerable risk catalogue; `RiskID` is its
key). -/
structure RiskFlagNode where
  riskId : String
  riskName : String
  severity : String
  description : String
deriving DecidableEq, Repr

/-- A `FLAGGED_BY` relationship from a taxpayer to a risk flag. -/
structure FlagRel where
  tin : String
  riskId : String
  exposureAmount : Int
  detectedDate : String
  evidenceDetails : String
deriving DecidableEq, Repr

/-- An `ITReturn` node together with its `FILED` relationship source. -/
structure ITReturnRow where
  tin : String
  returnId : String
  taxYear : Int
  filedDate : String
  totalIncome : Int
deriving DecidableEq, Repr

/-- An `EFRISReturn` node together with its `REPORTED` relationship source. -/
structure EFRISReturnRow where
  tin : String
  returnId : String
  period : String
  totalSales : Int
  vatAmount : Int
deriving DecidableEq, Repr

structure GraphDB where
  taxpayers : List Taxpayer
  riskFlags : List RiskFlagNode
  flags : List FlagRel
  itReturns : List ITReturnRow
  efrisReturns : List EFRISReturnRow
  /-- `true` models a store on which any access raises. -/
  failing : Bool
deriving DecidableEq, Repr

/-- The `FLAGGED_BY` relationships of one taxpayer whose target `RiskFlag`
node exists (a Cypher `MATCH (t)-[flagged:FLAGGED_BY]->(rf:RiskFlag)` row
set). -/
def validFlagsOf (db : GraphDB) (tin : String) : List FlagRel :=
  db.flags.filter (fun f => f.tin = tin ∧ db.riskFlags.any (fun r => r.riskId = f.riskId))

/-! ### Descending sort (Cypher `ORDER BY … DESC`)

Insertion sort by a key, largest first; structurally recursive so concrete
results evaluate in the kernel. -/

def insertDescBy {α β : Type} [LinearOrder β] (key : α → β) (x : α) :
    List α → List α
  | [] => [x]
  | y :: ys => if key y ≤ key x then x :: y :: ys else y :: insertDescBy key x ys

def sortDescBy {α β : Type} [LinearOrder β] (key : α → β) : List α → List α
  | [] => []
  | x :: xs => insertDescBy key x (sortDescBy key xs)

/-! ### Cypher query functions (tatis360.py lines 68-366) -/

/-- One element of the `risks` list collected by `search_taxpayer_by_tin`:
`collect(DISTINCT {riskId, riskName, severity, exposureAmount,
detectedDate})`. -/
structure RiskEntry where
  riskId : String
  riskName : String
  severity : String
  exposureAmount : Int
  detectedDate : String
deriving DecidableEq, Repr

structure ITEntry where
  returnId : String
  year : Int
  filedDate : String
  totalIncome : Int
deriving DecidableEq, Repr

structure EFEntry where
  returnId : String
  period : String
  totalSales : Int
  vat : Int
deriving DecidableEq, Repr

/-- The single aggregated record returned by `search_taxpayer_by_tin`. -/
structure TPRecord where
  taxpayer : Taxpayer
  risks : List RiskEntry
  itReturns : List ITEntry
  efrisReturns : List EFEntry
deriving DecidableEq, Repr

/-- The distinct risk entries of a taxpayer (risk-node fields joined with the
relationship's fields; `.dedup` is Cypher's `collect(DISTINCT …)`). -/
def riskEntriesOf (db : GraphDB) (tin : String) : List RiskEntry :=
  ((db.flags.filter (fun f => f.tin = tin)).filterMap (fun f =>
    (db.riskFlags.find? (fun r => r.riskId = f.riskId)).map (fun r =>
      { riskId := r.riskId, riskName := r.riskName, severity := r.severity,
        exposureAmount := f.exposureAmount, detectedDate := f.detectedDate }))).dedup

/-- `search_taxpayer_by_tin` (tatis360.py lines 68-117): exact TIN match with
aggregated relationships; `None` on no row and on a store error.  (For a
taxpayer without flags the Cypher `OPTIONAL MATCH` produces one all-null map
in `risks`, which we model as the empty list.) -/
def search_taxpayer_by_tin (db : GraphDB) (tin : String) : Option TPRecord :=
  if db.failing then none
  else
    match db.taxpayers.find? (fun t => t.tin = tin) with
    | none => none
    | some t =>
        some { taxpayer := t,
               risks := riskEntriesOf db tin,
               itReturns := ((db.itReturns.filter (fun r => r.tin = tin)).map (fun r =>
                 { returnId := r.returnId, year := r.taxYear,
                   filedDate := r.filedDate, totalIncome := r.totalIncome })).dedup,
               efrisReturns := ((db.efrisReturns.filter (fun r => r.tin = tin)).map (fun r =>
                 { returnId := r.returnId, period := r.period,
                   totalSales := r.totalSales, vat := r.vatAmount })).dedup }

/-- One row of `search_taxpayer_by_name`. -/
structure NameHit where
  tin : String
  name : String
  region : String
  sector : String
  status : String
  riskCount : Nat
  totalExposure : Int
deriving DecidableEq, Repr

/-- Lowercasing of an ASCII string, Cypher `toLower`. -/
def lowerChars (s : String) : List Char := s.data.map Char.toLower

/-- `search_taxpayer_by_name` (tatis360.py lines 119-150): case-insensitive
substring match on the name; per taxpayer `COUNT(DISTINCT rf)` and
`SUM(flagged.ExposureAmount)` over its `FLAGGED_BY` rows; ordered by
`totalExposure DESC`; `LIMIT 10`; `[]` on a store error. -/
def search_taxpayer_by_name (db : GraphDB) (name : String) : List NameHit :=
  if db.failing then []
  else
    let hits := (db.taxpayers.filter (fun t =>
        containsSub (lowerChars name) (lowerChars t.name))).map (fun t =>
      let fs := validFlagsOf db t.tin
      { tin := t.tin, name := t.name, region := t.region, sector := t.sector,
        status := t.status,
        riskCount := ((fs.map (fun f => f.riskId)).dedup).length,
        totalExposure := (fs.map (fun f => f.exposureAmount)).sum })
    (sortDescBy (fun h => h.totalExposure) hits).take 10

/-- One row of `find_related_taxpayers`.  `similarityScoreTenths` holds the
Cypher `ROUND(100.0 * shared_risk_count / 18, 1)` expressed in tenths (so
`167` renders as `16.7`), keeping the record kernel-computable. -/
structure RelatedHit where
  tin : String
  name : String
  region : String
  sector : String
  sharedRisks : Nat
  similarityScoreTenths : Nat
  exposure : Int
deriving DecidableEq, Repr

/-- Cypher `ROUND(x, 1)`: half-up rounding to one decimal place. -/
def round1 (x : Rat) : Rat := (round (x * 10) : Int) / 10

/-- `ROUND(100.0 * k / 18, 1)` in tenths: the half-up rounding of
`1000·k/18`, which for naturals is `⌊(1000k + 9)/18⌋`.  The theorem
`similarity_score_and_ranking` proves this equal to `round1` of the exact
rational. -/
def similarityTenths (k : Nat) : Nat := (1000 * k + 9) / 18

/-- `find_related_taxpayers` (tatis360.py lines 152-187): other taxpayers
sharing at least one risk flag with `tin`; per candidate the distinct shared
risk count, the score `ROUND(100.0 * shared_risk_count / 18, 1)` and the sum
of the matched rows' exposures (each related relationship appears once per
matching flag of the source taxpayer, as in the Cypher row set); ordered by
`shared_risk_count DESC`; `LIMIT 10`; `[]` on a store error. -/
def find_related_taxpayers (db : GraphDB) (tin : String) : List RelatedHit :=
  if db.failing then []
  else if db.taxpayers.any (fun t => t.tin = tin) then
    let myFlags := validFlagsOf db tin
    let myRiskIds := (myFlags.map (fun f => f.riskId)).dedup
    let cands := db.taxpayers.filter (fun t2 =>
      t2.tin ≠ tin ∧ (validFlagsOf db t2.tin).any (fun f => f.riskId ∈ myRiskIds))
    let hits := cands.map (fun t2 =>
      let shared := (validFlagsOf db t2.tin).filter (fun f => f.riskId ∈ myRiskIds)
      let sharedCount := ((shared.map (fun f => f.riskId)).dedup).length
      { tin := t2.tin, name := t2.name, region := t2.region, sector := t2.sector,
        sharedRisks := sharedCount,
        similarityScoreTenths := similarityTenths sharedCount,
        exposure := (shared.map (fun f =>
          f.exposureAmount * ((myFlags.filter (fun g => g.riskId = f.riskId)).length : Int))).sum })
    (sortDescBy (fun h => h.sharedRisks) hits).take 10
  else []

/-- The record returned by `get_risk_pathway`; the variance is
`ABS(ir.TotalIncome - er.TotalSales)` of the first filing rows, `none` when
either filing is absent (Cypher null arithmetic). -/
structure PathwayRec where
  riskId : String
  riskName : String
  description : String
  severity : String
  exposureAmount : Int
  detectedDate : String
  evidence : String
  itReturn : Option ITEntry
  efrisReturn : Option EFEntry
  varianceAmount : Option Int
deriving DecidableEq, Repr

/-- `get_risk_pathway` (tatis360.py lines 189-239): the flagged relationship
of `tin` to a given risk plus correlated filings; `None` on no row and on a
store error. -/
def get_risk_pathway (db : GraphDB) (tin : String) (riskId : String) :
    Option PathwayRec :=
  if db.failing then none
  else if db.taxpayers.any (fun t => t.tin = tin) then
    match db.flags.find? (fun f => f.tin = tin ∧ f.riskId = riskId) with
    | none => none
    | some f =>
        match db.riskFlags.find? (fun r => r.riskId = riskId) with
        | none => none
        | some r =>
            let it := (db.itReturns.filter (fun x => x.tin = tin)).head?
            let er := (db.efrisReturns.filter (fun x => x.tin = tin)).head?
            some { riskId := r.riskId, riskName := r.riskName,
                   description := r.description, severity := r.severity,
                   exposureAmount := f.exposureAmount,
                   detectedDate := f.detectedDate, evidence := f.evidenceDetails,
                   itReturn := it.map (fun x =>
                     { returnId := x.returnId, year := x.taxYear,
                       filedDate := x.filedDate, totalIncome := x.totalIncome }),
                   efrisReturn := er.map (fun x =>
                     { returnId := x.returnId, period := x.period,
                       totalSales := x.totalSales, vat := x.vatAmount }),
                   varianceAmount :=
                     match it, er with
                     | some a, some b => some (|a.totalIncome - b.totalSales|)
                     | _, _ => none }
  else none

/-- One row of `find_high_impact_cases`: the per-relationship shape of the
`risk_id` branch or the per-taxpayer aggregate of the default branch. -/
inductive CaseHit where
  | perRisk (tin name region sector riskId riskName : String)
      (exposure : Int) (detectedDate : String)
  | aggregated (tin name region sector : String) (riskCount : Nat)
      (totalExposure : Int)
deriving DecidableEq, Repr

/-- The ranking key of a case row (`exposure` resp. `totalExposure`). -/
def caseExposure : CaseHit → Int
  | .perRisk _ _ _ _ _ _ e _ => e
  | .aggregated _ _ _ _ _ te => te

/-- `find_high_impact_cases` (tatis360.py lines 241-291): flagged
relationships with exposure at least `min_exposure` (default `1e9`),
optionally scoped to one risk flag; the default branch aggregates per
taxpayer; ordered by exposure descending; `LIMIT 20`; `[]` on a store
error. -/
def find_high_impact_cases (db : GraphDB) (riskId : Option String)
    (minExposure : Int) : List CaseHit :=
  if db.failing then []
  else
    match riskId with
    | some rid =>
        let rows := db.flags.filter (fun f =>
          f.riskId = rid ∧ f.exposureAmount ≥ minExposure ∧
          db.riskFlags.any (fun r => r.riskId = rid) ∧
          db.taxpayers.any (fun t => t.tin = f.tin))
        let cases := rows.map (fun f =>
          let t := (db.taxpayers.find? (fun t => t.tin = f.tin)).getD
            ⟨f.tin, "", "", "", "", ""⟩
          let r := (db.riskFlags.find? (fun r => r.riskId = rid)).getD
            ⟨rid, "", "", ""⟩
          CaseHit.perRisk t.tin t.name t.region t.sector r.riskId r.riskName
            f.exposureAmount f.detectedDate)
        (sortDescBy caseExposure cases).take 20
    | none =>
        let rows := db.flags.filter (fun f =>
          f.exposureAmount ≥ minExposure ∧
          db.riskFlags.any (fun r => r.riskId = f.riskId) ∧
          db.taxpayers.any (fun t => t.tin = f.tin))
        let tins := (rows.map (fun f => f.tin)).dedup
        let cases := tins.map (fun tn =>
          let t := (db.taxpayers.find? (fun t => t.tin = tn)).getD
            ⟨tn, "", "", "", "", ""⟩
          let fs := rows.filter (fun f => f.tin = tn)
          CaseHit.aggregated t.tin t.name t.region t.sector
            (((fs.map (fun f => f.riskId)).dedup).length)
            ((fs.map (fun f => f.exposureAmount)).sum))
        (sortDescBy caseExposure cases).take 20

/-- One row of `get_sector_risk_profile`. -/
structure SectorRow where
  sector : String
  riskId : String
  riskName : String
  severity : String
  prevalence : Nat
  totalExposure : Int
  /-- `ROUND(AVG(flagged.ExposureAmount), 0)`, half-up on the non-negative
  exposures the data model prescribes. -/
  averageExposure : Rat
deriving DecidableEq, Repr

/-- `get_sector_risk_profile` (tatis360.py lines 333-366): per risk flag the
count of distinct flagged taxpayers of a sector and their total and average
exposure, ordered by total exposure descending; `[]` on a store error. -/
def get_sector_risk_profile (db : GraphDB) (sector : String) : List SectorRow :=
  if db.failing then []
  else
    let sectorTins := (db.taxpayers.filter (fun t => t.sector = sector)).map (fun t => t.tin)
    let rows := db.flags.filter (fun f =>
      f.tin ∈ sectorTins ∧ db.riskFlags.any (fun r => r.riskId = f.riskId))
    let rids := (rows.map (fun f => f.riskId)).dedup
    let profile : List SectorRow := rids.map (fun rid =>
      let r := (db.riskFlags.find? (fun r => r.riskId = rid)).getD ⟨rid, "", "", ""⟩
      let fs := rows.filter (fun f => f.riskId = rid)
      { sector := sector, riskId := r.riskId, riskName := r.riskName,
        severity := r.severity,
        prevalence := ((fs.map (fun f => f.tin)).dedup).length,
        totalExposure := (fs.map (fun f => f.exposureAmount)).sum,
        averageExposure :=
          ((round (((fs.map (fun f => f.exposureAmount)).sum : Rat) / (fs.length : Rat)) : Int) : Rat) })
    sortDescBy (fun p => p.totalExposure) profile

/-! ### The dispatcher `generate_response` (tatis360.py lines 425-550)

Each textual return site of the Python function is modelled as one
constructor of `RText` carrying the values interpolated into its template,
so two responses are equal exactly when the rendered strings are.  `calls`
counts the store accesses (query-function invocations) the branch
performed. -/

/-- The response text of `generate_response`, one constructor per template
of the source. -/
inductive RText where
  /-- the `✅ Found Taxpayer` profile template -/
  | foundTaxpayer (name tin region sector status : String) (riskCount : Nat)
      (exposure : Int) (itCount efrisCount : Nat) (action : String)
  /-- `❌ Taxpayer with TIN {tin} not found` -/
  | tinNotFound (tin : String)
  /-- `❓ Please provide a TIN number to search` -/
  | promptTin
  /-- `✅ Found {n} taxpayers matching '{name}'` -/
  | foundByName (n : Nat) (name : String)
  /-- `❌ No taxpayers found with name containing '{name}'` -/
  | nameNotFound (name : String)
  /-- `✅ Found {n} taxpayers with similar risk profiles to {tin}` -/
  | foundRelated (n : Nat) (tin : String)
  /-- `❌ No related taxpayers found` -/
  | relatedNotFound
  /-- `❓ Please provide a TIN to find related taxpayers` -/
  | promptTinRelated
  /-- the `✅ Evidence Pathway …` template -/
  | pathwayFound (name riskId riskName : String) (exposure : Int)
      (detected : String)
  /-- `❌ No evidence pathway found` -/
  | pathwayNotFound
  /-- `❓ Please provide a TIN` -/
  | promptTinPathway
  /-- `✅ Found {n} high-impact audit cases (Exposure > UGX 1B)` -/
  | highImpactFound (n : Nat)
  /-- `❌ No high-impact cases found` -/
  | highImpactNone
  /-- the `✅ Risk Profile for {sector} Sector` template -/
  | sectorFound (sector : String) (n : Nat)
  /-- `❌ No data available for {sector} sector` -/
  | sectorNone (sector : String)
  /-- the static capability summary -/
  | helpText
deriving DecidableEq, Repr

/-- The `data_for_visualization` dict (`{}` when empty). -/
inductive Payload where
  | empty
  | taxpayer (r : TPRecord)
  | searchResults (rs : List NameHit)
  | related (rs : List RelatedHit)
  | pathway (p : PathwayRec)
  | cases (cs : List CaseHit)
  | sector (ps : List SectorRow)
deriving DecidableEq, Repr

/-- A dispatcher result: the rendered text, the visualization payload, and
the number of store accesses performed while producing it. -/
structure Resp where
  text : RText
  payload : Payload
  calls : Nat
deriving DecidableEq, Repr

/-- The three `❓` re-prompt templates of the dispatcher. -/
def isPromptText : RText → Bool
  | .promptTin => true
  | .promptTinRelated => true
  | .promptTinPathway => true
  | _ => false

/-- The recommended-action expression of the `search_tin` branch
(tatis360.py lines 454-459). -/
def recommendedAction (risk_count : Nat) : String :=
  if risk_count ≥ 10 then "CRITICAL - Immediate Audit"
  else if risk_count ≥ 5 then "HIGH PRIORITY - Schedule Audit"
  else if risk_count ≥ 2 then "MEDIUM - Review Risk Profile"
  else "LOW - Routine Monitoring"

/-- The ordinal position of a recommendation tier, for stating
monotonicity. -/
def actionLevel (s : String) : Nat :=
  if s = "CRITICAL - Immediate Audit" then 3
  else if s = "HIGH PRIORITY - Schedule Audit" then 2
  else if s = "MEDIUM - Review Risk Profile" then 1
  else 0

/-- `params.get('extracted_value')` — `None` both when the key is absent
(keyword-path `{}`) and when it holds `None`. -/
def pyGet (params : Params) : Option String :=
  match params with
  | none => none
  | some v => v

/-- Python truthiness of `params.get('extracted_value')`: `None` and the
empty string are falsy. -/
def truthy : Option String → Bool
  | none => false
  | some s => !(s == "")

/-- `params.get('extracted_value', d)` for a string default `d`; for the
intents using it (`search_name`, `sector_analysis`) every group-bearing
pattern captures a string, so a stored `None` does not arise and is mapped
to the default as well. -/
def pyGetD (params : Params) (d : String) : String :=
  match params with
  | some (some s) => s
  | _ => d

/-- `generate_response` (tatis360.py lines 425-550).  The `graph` argument is
the modelled store; `user_input` is accepted and, as in the source, never
read.  Note the fall-through: the source has no `risk_analysis` branch, so
that intent lands in the final `else` (help) branch. -/
def generate_response (db : GraphDB) (intent : Intent) (params : Params)
    (_user_input : String) : Resp :=
  match intent with
  | .search_tin =>
      let tin := pyGet params
      if truthy tin then
        let t := tin.getD ""
        match search_taxpayer_by_tin db t with
        | some result =>
            let risk_count := result.risks.length
            let exposure := (result.risks.map (fun r => r.exposureAmount)).sum
            { text := .foundTaxpayer result.taxpayer.name result.taxpayer.tin
                result.taxpayer.region result.taxpayer.sector
                result.taxpayer.status risk_count exposure
                result.itReturns.length result.efrisReturns.length
                (recommendedAction risk_count),
              payload := .taxpayer result, calls := 1 }
        | none => { text := .tinNotFound t, payload := .empty, calls := 1 }
      else { text := .promptTin, payload := .empty, calls := 0 }
  | .search_name =>
      let name := pyGetD params ""
      let results := search_taxpayer_by_name db name
      if results.isEmpty then
        { text := .nameNotFound name, payload := .empty, calls := 1 }
      else
        { text := .foundByName results.length name,
          payload := .searchResults results, calls := 1 }
  | .related =>
      let tin := pyGet params
      if truthy tin then
        let t := tin.getD ""
        let rel := find_related_taxpayers db t
        if rel.isEmpty then
          { text := .relatedNotFound, payload := .empty, calls := 1 }
        else
          { text := .foundRelated rel.length t, payload := .related rel,
            calls := 1 }
      else { text := .promptTinRelated, payload := .empty, calls := 0 }
  | .pathway =>
      let tin := pyGet params
      if truthy tin then
        let t := tin.getD ""
        match search_taxpayer_by_tin db t with
        | some tp =>
            match tp.risks.head? with
            | some firstRisk =>
                match get_risk_pathway db t firstRisk.riskId with
                | some pw =>
                    { text := .pathwayFound tp.taxpayer.name pw.riskId
                        pw.riskName pw.exposureAmount pw.detectedDate,
                      payload := .pathway pw, calls := 2 }
                | none =>
                    { text := .pathwayNotFound, payload := .empty, calls := 2 }
            | none => { text := .pathwayNotFound, payload := .empty, calls := 1 }
        | none => { text := .pathwayNotFound, payload := .empty, calls := 1 }
      else { text := .promptTinPathway, payload := .empty, calls := 0 }
  | .high_impact =>
      let cases := find_high_impact_cases db none 1000000000
      if cases.isEmpty then
        { text := .highImpactNone, payload := .empty, calls := 1 }
      else
        { text := .highImpactFound cases.length, payload := .cases cases,
          calls := 1 }
  | .sector_analysis =>
      let sector := pyGetD params "Manufacturing"
      let profile := get_sector_risk_profile db sector
      if profile.isEmpty then
        { text := .sectorNone sector, payload := .empty, calls := 1 }
      else
        { text := .sectorFound sector profile.length,
          payload := .sector profile, calls := 1 }
  | _ => { text := .helpText, payload := .empty, calls := 0 }

/-! ### Audit-task write operations (audit_tasks.py lines 346-617)

The properties of one `AuditTask` node together with its current
`ASSIGNED_TO` auditor and `LINKED_TO` risk flags; `now` arguments stand for
the Cypher `datetime()` stamps.  `notes` is `Option String`: `none` is a
null `Notes` property (the `CASE WHEN task.Notes IS NULL` branch of the
note-appending queries); note texts are taken already formatted
(timestamp-prefixed) as the Python callers build them. -/

structure TaskState where
  taskName : String
  description : String
  status : String
  priority : String
  assignedDate : Nat
  dueDate : Nat
  exposureAmount : Int
  progressPercent : Int
  notes : Option String
  createdDate : Nat
  lastUpdated : Option Nat
  completedDate : Option Nat
  assignedAuditor : String
  assignedBy : String
  linkedRisks : List String
deriving DecidableEq, Repr

/-- The `task_data` dict of `create_audit_task`; optional keys carry the
`.get` defaults of the source. -/
structure TaskData where
  taxpayer_tin : String
  auditor_id : String
  task_name : String
  description : Option String
  priority : Option String
  due_date : Nat
  exposure : Option Int
  notes : Option String
  assigned_by : Option String
  risk_ids : List String
deriving DecidableEq, Repr

/-- `create_audit_task` (audit_tasks.py lines 346-410): a fresh task with
`Status = 'Assigned'` and `ProgressPercent = 0`, assigned to the given
auditor and linked to the given risks. -/
def create_audit_task (d : TaskData) (now : Nat) : TaskState :=
  { taskName := d.task_name,
    description := d.description.getD "",
    status := "Assigned",
    priority := d.priority.getD "Medium",
    assignedDate := now,
    dueDate := d.due_date,
    exposureAmount := d.exposure.getD 0,
    progressPercent := 0,
    notes := some (d.notes.getD ""),
    createdDate := now,
    lastUpdated := none,
    completedDate := none,
    assignedAuditor := d.auditor_id,
    assignedBy := d.assigned_by.getD "System",
    linkedRisks := d.risk_ids }

/-- `add_task_note` (audit_tasks.py lines 519-549): append `note` to the
`Notes` property (`CASE WHEN task.Notes IS NULL THEN $note ELSE task.Notes +
'\n' + $note END`). -/
def add_task_note (t : TaskState) (note : String) (now : Nat) : TaskState :=
  { t with
    notes := match t.notes with
             | none => some note
             | some s => some (s ++ "\n" ++ note),
    lastUpdated := some now }

/-- `update_task_status` (audit_tasks.py lines 412-449): set the status; the
guarded `OPTIONAL MATCH (task) WHERE task.Status = 'Completed'` clause
stamps `CompletedDate` when the new status is `Completed`; the Python
wrapper then appends a `Status: …` note when `notes` is nonempty.
`ProgressPercent` is not touched. -/
def update_task_status (t : TaskState) (new_status : String) (notes : String)
    (now : Nat) : TaskState :=
  let t1 := { t with status := new_status, lastUpdated := some now }
  let t2 := if t1.status = "Completed" then { t1 with completedDate := some now }
            else t1
  if notes = "" then t2
  else add_task_note t2 ("Status: " ++ new_status ++ " - " ++ notes) now

/-- `update_task_progress` (audit_tasks.py lines 451-477): store
`max(0, min(100, progress_percent))`. -/
def update_task_progress (t : TaskState) (progress_percent : Int) (now : Nat) :
    TaskState :=
  { t with progressPercent := max 0 (min 100 progress_percent),
           lastUpdated := some now }

/-- `reassign_task` (audit_tasks.py lines 479-517): replace the `ASSIGNED_TO`
edge. -/
def reassign_task (t : TaskState) (new_auditor_id : String) (_reason : String)
    (now : Nat) : TaskState :=
  { t with assignedAuditor := new_auditor_id, lastUpdated := some now }

/-- `link_risk_to_task` (audit_tasks.py lines 551-581): add a `LINKED_TO`
edge. -/
def link_risk_to_task (t : TaskState) (risk_id : String) (now : Nat) :
    TaskState :=
  { t with linkedRisks := t.linkedRisks ++ [risk_id], lastUpdated := some now }

/-- `complete_task` (audit_tasks.py lines 583-617): set `Status =
'Completed'`, stamp `CompletedDate`, set `ProgressPercent = 100` and append
the completion note. -/
def complete_task (t : TaskState) (completion_notes : String) (now : Nat) :
    TaskState :=
  { t with
    status := "Completed",
    completedDate := some now,
    progressPercent := 100,
    notes := match t.notes with
             | none => some completion_notes
             | some s => some (s ++ "\n" ++ completion_notes),
    lastUpdated := some now }

/-! ### Helper lemmas about the descending sort and sums -/

theorem mem_insertDescBy {α β : Type} [LinearOrder β] (key : α → β) (x a : α)
    (l : List α) : a ∈ insertDescBy key x l ↔ a = x ∨ a ∈ l := by
  induction l with
  | nil => simp [insertDescBy]
  | cons y ys ih =>
      simp only [insertDescBy]
      by_cases h : key y ≤ key x
      · simp only [if_pos h, List.mem_cons]
      · simp only [if_neg h, List.mem_cons, ih]
        tauto

theorem mem_sortDescBy {α β : Type} [LinearOrder β] (key : α → β) (a : α)
    (l : List α) : a ∈ sortDescBy key l ↔ a ∈ l := by
  induction l with
  | nil => simp [sortDescBy]
  | cons y ys ih =>
      simp only [sortDescBy, mem_insertDescBy, List.mem_cons, ih]

theorem length_insertDescBy {α β : Type} [LinearOrder β] (key : α → β) (x : α)
    (l : List α) : (insertDescBy key x l).length = l.length + 1 := by
  induction l with
  | nil => simp [insertDescBy]
  | cons y ys ih =>
      simp only [insertDescBy]
      by_cases h : key y ≤ key x
      · simp [if_pos h]
      · simp [if_neg h, ih]

theorem length_sortDescBy {α β : Type} [LinearOrder β] (key : α → β)
    (l : List α) : (sortDescBy key l).length = l.length := by
  induction l with
  | nil => rfl
  | cons y ys ih => simp [sortDescBy, length_insertDescBy, ih]

theorem pairwise_insertDescBy {α β : Type} [LinearOrder β] (key : α → β)
    (x : α) (l : List α) (h : l.Pairwise (fun a b => key b ≤ key a)) :
    (insertDescBy key x l).Pairwise (fun a b => key b ≤ key a) := by
  induction l with
  | nil => simp [insertDescBy]
  | cons y ys ih =>
      rcases List.pairwise_cons.1 h with ⟨hy, hys⟩
      simp only [insertDescBy]
      by_cases hxy : key y ≤ key x
      · rw [if_pos hxy]
        refine List.Pairwise.cons ?_ h
        intro z hz
        rcases List.mem_cons.1 hz with rfl | hz
        · exact hxy
        · exact le_trans (hy z hz) hxy
      · rw [if_neg hxy]
        refine List.Pairwise.cons ?_ (ih hys)
        intro z hz
        rcases (mem_insertDescBy key x z ys).1 hz with rfl | hz
        · exact le_of_not_le hxy
        · exact hy z hz

theorem pairwise_sortDescBy {α β : Type} [LinearOrder β] (key : α → β)
    (l : List α) : (sortDescBy key l).Pairwise (fun a b => key b ≤ key a) := by
  induction l with
  | nil => simp [sortDescBy]
  | cons y ys ih => exact pairwise_insertDescBy key y (sortDescBy key ys) ih

theorem le_sum_of_all_le {m : Int} (l : List Int) (hne : l ≠ [])
    (h : ∀ x ∈ l, m ≤ x) (hm : 0 ≤ m) : m ≤ l.sum := by
  induction l with
  | nil => exact absurd rfl hne
  | cons x xs ih =>
      rcases eq_or_ne xs [] with rfl | hxs
      · simpa using h x (by simp)
      · have h1 := h x (by simp)
        have h2 := ih hxs (fun y hy => h y (by simp [hy]))
        simp only [List.sum_cons]
        linarith

/-- The recommended-action slot of a response text, when present. -/
def RText.action : RText → Option String
  | .foundTaxpayer _ _ _ _ _ _ _ _ _ a => some a
  | _ => none

/-! ### Concrete stores and tasks used by the witnesses -/

def sampleTaxpayer : Taxpayer :=
  ⟨"T1", "Uganda Breweries", "Central", "Manufacturing", "Compliant", "2024-01-01"⟩

def sampleDb : GraphDB :=
  { taxpayers := [sampleTaxpayer],
    riskFlags := [⟨"R1", "VAT gap", "High", "sales versus VAT variance"⟩],
    flags := [⟨"T1", "R1", 2300000000, "2024-02-02", "filing variance"⟩],
    itReturns := [], efrisReturns := [], failing := false }

def failingDb : GraphDB := { sampleDb with failing := true }

def emptyDb : GraphDB :=
  { taxpayers := [], riskFlags := [], flags := [], itReturns := [],
    efrisReturns := [], failing := false }

/-- The record `search_taxpayer_by_tin sampleDb "T1"` returns. -/
def sampleRecord : TPRecord :=
  { taxpayer := sampleTaxpayer,
    risks := [⟨"R1", "VAT gap", "High", 2300000000, "2024-02-02"⟩],
    itReturns := [], efrisReturns := [] }

def sampleTaskData : TaskData :=
  ⟨"T1", "A1", "Field audit", none, none, 100, none, none, none, ["R1"]⟩

/-- A store with two taxpayers sharing three risk flags. -/
def relDb : GraphDB :=
  { taxpayers := [sampleTaxpayer,
      ⟨"T2", "Nile Distillers", "Central", "Manufacturing", "Flagged", "2024-01-05"⟩],
    riskFlags := [⟨"R1", "VAT gap", "High", ""⟩, ⟨"R2", "Income gap", "High", ""⟩,
      ⟨"R3", "Customs gap", "Medium", ""⟩],
    flags := [⟨"T1", "R1", 10, "d", "e"⟩, ⟨"T1", "R2", 20, "d", "e"⟩,
      ⟨"T1", "R3", 30, "d", "e"⟩, ⟨"T2", "R1", 100, "d", "e"⟩,
      ⟨"T2", "R2", 200, "d", "e"⟩, ⟨"T2", "R3", 300, "d", "e"⟩],
    itReturns := [], efrisReturns := [], failing := false }

/-! ### Claims about the intent classifier -/

theorem firstPat_eq_none (pats : List Pat) (s : List Char)
    (h : ∀ p ∈ pats, patSearch p s = none) : firstPat pats s = none := by
  induction pats with
  | nil => rfl
  | cons p rest ih =>
      simp only [firstPat]
      rw [h p (by simp)]
      exact ih (fun q hq => h q (by simp [hq]))

/-- No pattern of any definition matches the normalized input, and no
keyword of any definition occurs in it. -/
def noMatchAll (s : String) : Bool :=
  intentDefs.all (fun d =>
    d.patterns.all (fun p => (patSearch p (normalizeInput s)).isNone) &&
    !(keywordHit d.keywords (normalizeInput s)))

theorem detectGo_help (defs : List IntentDef) (s : List Char)
    (h : defs.all (fun d =>
      d.patterns.all (fun p => (patSearch p s).isNone) &&
      !(keywordHit d.keywords s)) = true) :
    detectGo defs s = (Intent.help, none) := by
  induction defs with
  | nil => rfl
  | cons d rest ih =>
      simp only [List.all_cons, Bool.and_eq_true, Bool.not_eq_true'] at h
      obtain ⟨⟨hp, hk⟩, hrest⟩ := h
      have hfp : firstPat d.patterns s = none := by
        refine firstPat_eq_none _ _ (fun p hmem => ?_)
        have := List.all_eq_true.1 hp p hmem
        simpa [Option.isNone_iff_eq_none] using this
      simp only [detectGo, hfp, hk]
      exact ih hrest

/-- **C8.** `detect_intent` is a total function (it never throws) whose tag is
always one of the eight supported intents; when no pattern of any definition
matches the normalized input and no keyword of any definition occurs in it,
it returns the `help` default. -/
theorem classify_total_defaults_help (s : String) :
    (detect_intent s).1 ∈ [Intent.search_tin, Intent.search_name,
      Intent.risk_analysis, Intent.related, Intent.pathway,
      Intent.sector_analysis, Intent.high_impact, Intent.help] ∧
    (noMatchAll s = true → detect_intent s = (Intent.help, none)) := by
  constructor
  · cases h : (detect_intent s).1 <;> simp
  · intro h
    exact detectGo_help intentDefs (normalizeInput s) h

/-- Witness for C8 at the concrete unmatched input `"hello"`. -/
theorem classify_total_witness :
    noMatchAll "hello" = true ∧ detect_intent "hello" = (Intent.help, none) :=
  ⟨by decide, (classify_total_defaults_help "hello").2 (by decide)⟩

/-- **C1 counterexample.** On the input `"risk rating"` the pattern
`risk.*(\w+)` of the `risk_analysis` definition matches the normalized text,
yet `detect_intent` returns the keyword-stage result `(search_tin, {})`: the
keyword `'tin'` of the earlier `search_tin` definition occurs inside
`"rating"` and is consulted before any later definition's patterns.  The
pattern stage is therefore not exhausted across all definitions before
keyword fallback. -/
theorem keywordFallback_preempts_counterexample :
    Pat.litDotStarWord "risk" ∈ (intentDefs.map (fun d => d.patterns)).flatten ∧
    patSearch (Pat.litDotStarWord "risk") (normalizeInput "risk rating") =
      some (some ['g']) ∧
    detect_intent "risk rating" = (Intent.search_tin, none) :=
  ⟨by decide, by decide, by decide⟩

/-- **C1 (amended).** The classifier interleaves the two stages per
definition: for each intent definition, in priority order, its patterns are
tried first and then its keyword set, before the next definition is
considered.  In particular, whenever every pattern of the first
(`search_tin`) definition fails on the normalized text but one of its
keywords occurs in it as a substring, the keyword result `(search_tin, {})`
is returned even if a pattern of a later definition matches. -/
theorem keywordFallback_preempts_later_patterns (s : String)
    (h1 : firstPat [Pat.litThenWord "search ", Pat.litThenWord "find ",
      Pat.litThenWord "tin ", Pat.litThenWord "taxpayer "]
      (normalizeInput s) = none)
    (h2 : keywordHit ["tin", "search", "find", "taxpayer"]
      (normalizeInput s) = true) :
    detect_intent s = (Intent.search_tin, none) := by
  simp [detect_intent, intentDefs, detectGo, h1, h2]

/-- Witness for the amended C1 at the concrete input `"risk rating"`. -/
theorem keywordFallback_preempts_witness :
    firstPat [Pat.litThenWord "search ", Pat.litThenWord "find ",
      Pat.litThenWord "tin ", Pat.litThenWord "taxpayer "]
      (normalizeInput "risk rating") = none ∧
    keywordHit ["tin", "search", "find", "taxpayer"]
      (normalizeInput "risk rating") = true ∧
    detect_intent "risk rating" = (Intent.search_tin, none) :=
  ⟨by decide, by decide,
    keywordFallback_preempts_later_patterns "risk rating" (by decide) (by decide)⟩

/-- **C10.** If the normalized input matches `search (\w+)` — the first
pattern of the first (`search_tin`) definition — then `detect_intent`
returns `search_tin` with the single captured word; if that pattern fails
but `find (\w+)` matches, likewise.  A multi-word name query phrased with
`find`/`search` is therefore routed to identifier lookup with only the
first following word as parameter; the `search_name` definition is never
reached for such inputs. -/
theorem find_routes_to_identifier (s : String) (w : List Char) :
    (patSearch (Pat.litThenWord "search ") (normalizeInput s) = some (some w) →
      detect_intent s = (Intent.search_tin, some (some (String.mk w)))) ∧
    (patSearch (Pat.litThenWord "search ") (normalizeInput s) = none →
     patSearch (Pat.litThenWord "find ") (normalizeInput s) = some (some w) →
      detect_intent s = (Intent.search_tin, some (some (String.mk w)))) := by
  constructor
  · intro h
    simp [detect_intent, detectGo, intentDefs, firstPat, h]
  · intro h1 h2
    simp [detect_intent, detectGo, intentDefs, firstPat, h1, h2]

/-- Witness for C10 at the claim's example `"find uganda breweries"`:
the extracted parameter is the single word `uganda`. -/
theorem find_routes_witness :
    patSearch (Pat.litThenWord "search ")
      (normalizeInput "find uganda breweries") = none ∧
    patSearch (Pat.litThenWord "find ")
      (normalizeInput "find uganda breweries") = some (some "uganda".data) ∧
    detect_intent "find uganda breweries" =
      (Intent.search_tin, some (some "uganda")) :=
  ⟨by decide, by decide,
    (find_routes_to_identifier "find uganda breweries" "uganda".data).2
      (by decide) (by decide)⟩

/-! ### Claims about the dispatcher -/

/-- **C2.** The intents whose dispatch validates its parameter —
`search_tin`, `related` and `pathway` (the remaining parameterized branches
`search_name` and `sector_analysis` substitute the defaults `''` and
`'Manufacturing'` instead of validating) — return a prompt-style,
message-only envelope and perform no store access at all when the parameter
is missing or empty. -/
theorem missingParam_prompts_no_store_access (db : GraphDB) (params : Params)
    (u : String) (i : Intent)
    (hi : i ∈ [Intent.search_tin, Intent.related, Intent.pathway])
    (hp : truthy (pyGet params) = false) :
    (generate_response db i params u).calls = 0 ∧
    isPromptText (generate_response db i params u).text = true ∧
    (generate_response db i params u).payload = Payload.empty := by
  simp only [List.mem_cons, List.mem_singleton, List.not_mem_nil, or_false] at hi
  rcases hi with rfl | rfl | rfl <;>
    simp [generate_response, hp, isPromptText]

/-- Witness for C2: dispatching `search_tin` with the empty identifier
(`{'extracted_value': ''}`) against a populated store issues no query. -/
theorem missingParam_prompts_witness :
    Intent.search_tin ∈ [Intent.search_tin, Intent.related, Intent.pathway] ∧
    truthy (pyGet (some (some ""))) = false ∧
    (generate_response sampleDb Intent.search_tin (some (some "")) "search ").calls = 0 ∧
    isPromptText (generate_response sampleDb Intent.search_tin
      (some (some "")) "search ").text = true ∧
    (generate_response sampleDb Intent.search_tin (some (some "")) "search ").payload =
      Payload.empty :=
  ⟨by decide, by decide,
    missingParam_prompts_no_store_access sampleDb (some (some ""))
      "search " Intent.search_tin (by decide) (by decide)⟩

theorem actionLevel_recommendedAction (k : Nat) :
    actionLevel (recommendedAction k) =
      (if 10 ≤ k then 3 else if 5 ≤ k then 2 else if 2 ≤ k then 1 else 0) := by
  by_cases h10 : 10 ≤ k
  · simp [recommendedAction, actionLevel, h10]
  · by_cases h5 : 5 ≤ k
    · simp [recommendedAction, actionLevel, h10, h5]
    · by_cases h2 : 2 ≤ k
      · simp [recommendedAction, actionLevel, h10, h5, h2]
      · simp [recommendedAction, actionLevel, h10, h5, h2]

/-- **C3.** The recommended-action tier of the identifier-search branch is
determined solely by the risk-flag count with exactly the thresholds 10, 5
and 2; it is monotone non-decreasing in the count; and the found-taxpayer
response of the dispatcher carries `recommendedAction` of the record's
risk count. -/
theorem recommendation_tier_correct (n m : Nat) :
    (10 ≤ n → recommendedAction n = "CRITICAL - Immediate Audit") ∧
    (5 ≤ n → n ≤ 9 → recommendedAction n = "HIGH PRIORITY - Schedule Audit") ∧
    (2 ≤ n → n ≤ 4 → recommendedAction n = "MEDIUM - Review Risk Profile") ∧
    (n ≤ 1 → recommendedAction n = "LOW - Routine Monitoring") ∧
    (n ≤ m → actionLevel (recommendedAction n) ≤ actionLevel (recommendedAction m)) ∧
    (∀ (db : GraphDB) (params : Params) (u : String) (r : TPRecord),
      truthy (pyGet params) = true →
      search_taxpayer_by_tin db ((pyGet params).getD "") = some r →
      RText.action (generate_response db Intent.search_tin params u).text =
        some (recommendedAction r.risks.length)) := by
  refine ⟨?_, ?_, ?_, ?_, ?_, ?_⟩
  · intro h; rw [recommendedAction, if_pos h]
  · intro h5 h9
    rw [recommendedAction, if_neg (by omega), if_pos h5]
  · intro h2 h4
    rw [recommendedAction, if_neg (by omega), if_neg (by omega), if_pos h2]
  · intro h1
    rw [recommendedAction, if_neg (by omega), if_neg (by omega), if_neg (by omega)]
  · intro hnm
    rw [actionLevel_recommendedAction, actionLevel_recommendedAction]
    split_ifs <;> omega
  · intro db params u r htr hfind
    simp [generate_response, htr, hfind, RText.action]

/-- Witness for C3: the boundary values 1, 2, 4, 5, 9, 10 of the tier
thresholds, a monotonicity instance, and the dispatched response of the
sample store (one risk flag ⇒ the low tier). -/
theorem recommendation_tier_witness :
    recommendedAction 10 = "CRITICAL - Immediate Audit" ∧
    recommendedAction 5 = "HIGH PRIORITY - Schedule Audit" ∧
    recommendedAction 9 = "HIGH PRIORITY - Schedule Audit" ∧
    recommendedAction 2 = "MEDIUM - Review Risk Profile" ∧
    recommendedAction 4 = "MEDIUM - Review Risk Profile" ∧
    recommendedAction 1 = "LOW - Routine Monitoring" ∧
    actionLevel (recommendedAction 3) ≤ actionLevel (recommendedAction 7) ∧
    RText.action (generate_response sampleDb Intent.search_tin
      (some (some "T1")) "").text =
      some (recommendedAction sampleRecord.risks.length) :=
  ⟨(recommendation_tier_correct 10 10).1 (by decide),
   (recommendation_tier_correct 5 5).2.1 (by decide) (by decide),
   (recommendation_tier_correct 9 9).2.1 (by decide) (by decide),
   (recommendation_tier_correct 2 2).2.2.1 (by decide) (by decide),
   (recommendation_tier_correct 4 4).2.2.1 (by decide) (by decide),
   (recommendation_tier_correct 1 1).2.2.2.1 (by decide),
   (recommendation_tier_correct 3 7).2.2.2.2.1 (by decide),
   (recommendation_tier_correct 0 0).2.2.2.2.2 sampleDb (some (some "T1")) ""
     sampleRecord (by decide) (by decide)⟩

/-- **C4 counterexample.** A store-access error and an empty store produce
*identical* not-found envelopes for the identifier search: no distinct
error-kind envelope exists in the dispatcher.  (`failingDb` even contains
the requested taxpayer — the error path hides it behind the same
`❌ … not found` message as zero rows.) -/
theorem store_error_envelope_counterexample :
    failingDb.failing = true ∧
    search_taxpayer_by_tin failingDb "T1" = none ∧
    generate_response failingDb Intent.search_tin (some (some "T1")) "" =
      generate_response emptyDb Intent.search_tin (some (some "T1")) "" ∧
    (generate_response failingDb Intent.search_tin (some (some "T1")) "").text =
      RText.tinNotFound "T1" := by
  refine ⟨rfl, by decide, by decide, by decide⟩

/-- **C4 (amended).** Every store-access error raised during dispatch is
caught inside the query functions — which return their empty results
(`None`/`[]`) — and is never propagated to the presentation layer; the
dispatcher consequently surfaces it with the *same* not-found/empty
envelope it produces for zero rows, not with a distinct error-kind
envelope. -/
theorem store_error_swallowed_as_not_found (db : GraphDB) (t n u : String)
    (hf : db.failing = true) (ht : t ≠ "") :
    search_taxpayer_by_tin db t = none ∧
    search_taxpayer_by_name db n = [] ∧
    find_related_taxpayers db t = [] ∧
    find_high_impact_cases db none 1000000000 = [] ∧
    (generate_response db Intent.search_tin (some (some t)) u).text =
      RText.tinNotFound t ∧
    (generate_response emptyDb Intent.search_tin (some (some t)) u).text =
      RText.tinNotFound t := by
  have htr : truthy (some t) = true := by simpa [truthy] using ht
  refine ⟨?_, ?_, ?_, ?_, ?_, ?_⟩
  · simp [search_taxpayer_by_tin, hf]
  · simp [search_taxpayer_by_name, hf]
  · simp [find_related_taxpayers, hf]
  · simp [find_high_impact_cases, hf]
  · simp [generate_response, htr, search_taxpayer_by_tin, hf, pyGet]
  · simp [generate_response, htr, search_taxpayer_by_tin, emptyDb, pyGet]

/-- Witness for the amended C4 at the concrete failing store. -/
theorem store_error_swallowed_witness :
    failingDb.failing = true ∧ ("T1" : String) ≠ "" ∧
    find_related_taxpayers failingDb "T1" = [] ∧
    (generate_response failingDb Intent.search_tin (some (some "T1")) "x").text =
      RText.tinNotFound "T1" :=
  ⟨rfl, by decide,
   (store_error_swallowed_as_not_found failingDb "T1" "n" "x" rfl
      (by decide)).2.2.1,
   (store_error_swallowed_as_not_found failingDb "T1" "n" "x" rfl
      (by decide)).2.2.2.2.1⟩

/-! ### Claims about the audit-task operations -/

/-- The task obtained by Assigned → In Progress → Completed purely through
`update_task_status`. -/
def c5FinalTask : TaskState :=
  update_task_status (update_task_status (create_audit_task sampleTaskData 0)
    "In Progress" "" 1) "Completed" "" 2

/-- **C5 counterexample.** A transition sequence Assigned → In Progress →
Completed performed via `update_task_status` ends Completed with a non-null
completion date but with `ProgressPercent` still 0, not 100:
`update_task_status` never writes `ProgressPercent` (only `complete_task`
does). -/
theorem status_update_completion_counterexample :
    c5FinalTask.status = "Completed" ∧
    c5FinalTask.completedDate = some 2 ∧
    c5FinalTask.progressPercent = 0 ∧
    ¬(c5FinalTask.progressPercent = 100) := by decide

/-- **C5 (amended).** Completing a task through `complete_task` sets
status `Completed`, progress 100 and a non-null completion date; a
status-transition sequence ending in `Completed` through
`update_task_status` also stamps a non-null completion date, but leaves the
progress percent unchanged rather than forcing it to 100. -/
theorem completion_sets_fields (t : TaskState) (cn sn : String) (now : Nat) :
    (complete_task t cn now).status = "Completed" ∧
    (complete_task t cn now).progressPercent = 100 ∧
    (complete_task t cn now).completedDate = some now ∧
    (update_task_status t "Completed" sn now).status = "Completed" ∧
    (update_task_status t "Completed" sn now).completedDate = some now ∧
    (update_task_status t "Completed" sn now).progressPercent =
      t.progressPercent := by
  refine ⟨rfl, rfl, rfl, ?_, ?_, ?_⟩ <;>
    · simp only [update_task_status, add_task_note]
      split_ifs <;> rfl

/-- **C9.** Every operation writing a task's progress keeps it in `[0, 100]`:
creation initializes it to 0, the progress update clamps its integer input
to `max(0, min(100, p))`, completion sets it to 100, and every other task
operation leaves a progress within bounds within bounds. -/
theorem progress_percent_invariant (d : TaskData) (t : TaskState) (p : Int)
    (s note rid aid reason cn : String) (now : Nat) :
    (create_audit_task d now).progressPercent = 0 ∧
    (update_task_progress t p now).progressPercent = max 0 (min 100 p) ∧
    (0 ≤ (update_task_progress t p now).progressPercent ∧
      (update_task_progress t p now).progressPercent ≤ 100) ∧
    (complete_task t cn now).progressPercent = 100 ∧
    (0 ≤ t.progressPercent ∧ t.progressPercent ≤ 100 →
      ((0 ≤ (update_task_status t s note now).progressPercent ∧
        (update_task_status t s note now).progressPercent ≤ 100) ∧
       (0 ≤ (add_task_note t note now).progressPercent ∧
        (add_task_note t note now).progressPercent ≤ 100) ∧
       (0 ≤ (reassign_task t aid reason now).progressPercent ∧
        (reassign_task t aid reason now).progressPercent ≤ 100) ∧
       (0 ≤ (link_risk_to_task t rid now).progressPercent ∧
        (link_risk_to_task t rid now).progressPercent ≤ 100))) := by
  have hstat : (update_task_status t s note now).progressPercent =
      t.progressPercent := by
    simp only [update_task_status, add_task_note]
    split_ifs <;> rfl
  refine ⟨rfl, rfl, ?_, rfl, ?_⟩
  · constructor
    · simp [update_task_progress]
    · simp only [update_task_progress]
      omega
  · intro hb
    refine ⟨?_, ?_, ?_, ?_⟩
    · rw [hstat]; exact hb
    · exact hb
    · exact hb
    · exact hb

/-- Witness for C9: a freshly created task stays in bounds, an
out-of-range progress input 150 is clamped, and a status update preserves
the bounds. -/
theorem progress_percent_witness :
    (update_task_progress (create_audit_task sampleTaskData 0) 150 1).progressPercent =
      max 0 (min 100 150) ∧
    (0 ≤ (update_task_status (create_audit_task sampleTaskData 0)
        "In Progress" "" 1).progressPercent ∧
      (update_task_status (create_audit_task sampleTaskData 0)
        "In Progress" "" 1).progressPercent ≤ 100) :=
  ⟨(progress_percent_invariant sampleTaskData (create_audit_task sampleTaskData 0)
      150 "In Progress" "" "R1" "A2" "load" "done" 1).2.1,
   ((progress_percent_invariant sampleTaskData (create_audit_task sampleTaskData 0)
      150 "In Progress" "" "R1" "A2" "load" "done" 1).2.2.2.2 (by decide)).1⟩

theorem similarityTenths_eq_round (k : Nat) :
    (similarityTenths k : Int) = round ((100 : Rat) * k / 18 * 10) := by
  rw [round_eq]
  have h1 : (100 : Rat) * k / 18 * 10 + 1 / 2 =
      ((1000 * k + 9 : Nat) : Rat) / ((18 : Nat) : Rat) := by
    push_cast
    ring
  rw [h1, Rat.floor_natCast_div_natCast]
  simp [similarityTenths]

/-- The second taxpayer of `relDb` as `find_related_taxpayers` reports it:
3 shared risks of 18 categories, score 16.7. -/
def relHit : RelatedHit :=
  ⟨"T2", "Nile Distillers", "Central", "Manufacturing", 3, 167, 600⟩

/-- **C6.** Every row of `find_related_taxpayers` carries the similarity
score `ROUND(100.0 * shared_risk_count / 18, 1)` — one-decimal half-up
rounding of `100·k/18` for `k` shared risk flags of the 18 risk
categories — the list is ranked descending by shared-flag count, and
sharing 3 of 18 categories yields 16.7. -/
theorem similarity_score_and_ranking (db : GraphDB) (tin : String) :
    (∀ r ∈ find_related_taxpayers db tin,
       (r.similarityScoreTenths : Rat) / 10 =
         round1 ((100 : Rat) * r.sharedRisks / 18)) ∧
    (find_related_taxpayers db tin).Pairwise
      (fun a b => b.sharedRisks ≤ a.sharedRisks) ∧
    round1 ((100 : Rat) * (3 : Nat) / 18) = 167 / 10 := by
  have key : ∀ k : Nat, ((similarityTenths k : Nat) : Rat) / 10 =
      round1 ((100 : Rat) * k / 18) := by
    intro k
    rw [round1]
    have h := similarityTenths_eq_round k
    have h2 : ((similarityTenths k : Nat) : Rat) =
        ((round ((100 : Rat) * k / 18 * 10) : Int) : Rat) := by
      exact_mod_cast congrArg (fun z : Int => (z : Rat)) h
    rw [h2]
  refine ⟨?_, ?_, ?_⟩
  · intro r hr
    simp only [find_related_taxpayers] at hr
    split at hr
    · exact absurd hr (List.not_mem_nil r)
    · split at hr
      · have hr' := (mem_sortDescBy _ r _).1 (List.take_subset _ _ hr)
        obtain ⟨t2, _, rfl⟩ := List.mem_map.1 hr'
        exact key _
      · exact absurd hr (List.not_mem_nil r)
  · simp only [find_related_taxpayers]
    split
    · exact List.Pairwise.nil
    · split
      · exact List.Pairwise.sublist (List.take_sublist _ _)
          (pairwise_sortDescBy (fun h : RelatedHit => h.sharedRisks) _)
      · exact List.Pairwise.nil
  · rw [← key 3]
    norm_num [similarityTenths]

/-- Witness for C6 at a concrete store: the taxpayer sharing 3 of 18 risk
categories is returned with score 16.7 (167 tenths). -/
theorem similarity_score_witness :
    relHit ∈ find_related_taxpayers relDb "T1" ∧
    relHit.sharedRisks = 3 ∧ relHit.similarityScoreTenths = 167 ∧
    (relHit.similarityScoreTenths : Rat) / 10 =
      round1 ((100 : Rat) * relHit.sharedRisks / 18) :=
  ⟨by decide, by decide, by decide,
   (similarity_score_and_ranking relDb "T1").1 relHit (by decide)⟩

/-- **C7.** `search_taxpayer_by_name` and `find_related_taxpayers` return at
most 10 rows for every store; the default high-impact query returns at most
20 rows, each with exposure at least the one-billion default threshold,
ranked descending by exposure, and the dispatcher's `high_impact` branch
passes exactly that list as payload (or reports none found when it is
empty). -/
theorem result_caps_and_threshold (db : GraphDB) (name tin : String)
    (params : Params) (u : String) :
    (search_taxpayer_by_name db name).length ≤ 10 ∧
    (find_related_taxpayers db tin).length ≤ 10 ∧
    (find_high_impact_cases db none 1000000000).length ≤ 20 ∧
    (∀ c ∈ find_high_impact_cases db none 1000000000,
      1000000000 ≤ caseExposure c) ∧
    (find_high_impact_cases db none 1000000000).Pairwise
      (fun a b => caseExposure b ≤ caseExposure a) ∧
    ((generate_response db Intent.high_impact params u).payload =
       Payload.cases (find_high_impact_cases db none 1000000000) ∨
     find_high_impact_cases db none 1000000000 = []) := by
  refine ⟨?_, ?_, ?_, ?_, ?_, ?_⟩
  · simp only [search_taxpayer_by_name]
    split
    · simp
    · rw [List.length_take]
      exact min_le_left 10 _
  · simp only [find_related_taxpayers]
    split
    · simp
    · split
      · rw [List.length_take]
        exact min_le_left 10 _
      · simp
  · simp only [find_high_impact_cases]
    split
    · simp
    · rw [List.length_take]
      exact min_le_left 20 _
  · intro c hc
    simp only [find_high_impact_cases] at hc
    split at hc
    · exact absurd hc (List.not_mem_nil c)
    · have hc' := (mem_sortDescBy caseExposure c _).1 (List.take_subset _ _ hc)
      obtain ⟨tn, htn, rfl⟩ := List.mem_map.1 hc'
      obtain ⟨f, hf, hft⟩ := List.mem_map.1 (List.mem_dedup.1 htn)
      simp only [caseExposure]
      refine le_sum_of_all_le _ ?_ ?_ (by norm_num)
      · have hmem : f ∈ List.filter (fun g => decide (g.tin = tn))
            (List.filter (fun f => decide (f.exposureAmount ≥ 1000000000 ∧
              (db.riskFlags.any fun r => r.riskId = f.riskId) = true ∧
              (db.taxpayers.any fun t => t.tin = f.tin) = true)) db.flags) := by
          refine List.mem_filter.2 ⟨hf, by simp [hft]⟩
        intro hnil
        rw [List.map_eq_nil_iff] at hnil
        rw [hnil] at hmem
        exact absurd hmem (List.not_mem_nil f)
      · intro x hx
        obtain ⟨g, hg, rfl⟩ := List.mem_map.1 hx
        have hg' := List.mem_filter.1 (List.mem_of_mem_filter hg)
        have := of_decide_eq_true hg'.2
        exact this.1
  · simp only [find_high_impact_cases]
    split
    · exact List.Pairwise.nil
    · exact List.Pairwise.sublist (List.take_sublist _ _)
        (pairwise_sortDescBy caseExposure _)
  · by_cases hc : (find_high_impact_cases db none 1000000000).isEmpty
    · exact Or.inr (List.isEmpty_iff.1 hc)
    · exact Or.inl (by simp [generate_response, hc])

/-- The aggregated case row of the sample store. -/
def hiCase : CaseHit :=
  CaseHit.aggregated "T1" "Uganda Breweries" "Central" "Manufacturing" 1
    2300000000

/-- Witness for C7: the sample store's single 2.3-billion flag yields one
aggregated case above the default threshold. -/
theorem result_caps_witness :
    hiCase ∈ find_high_impact_cases sampleDb none 1000000000 ∧
    1000000000 ≤ caseExposure hiCase :=
  ⟨by decide,
   (result_caps_and_threshold sampleDb "" "" none "").2.2.2.1 hiCase (by decide)⟩
